import Mathlib

/-!
Shallow embedding of the analysis engine of `advanced_analyzer.py`
(class `AdvancedAnalyzer`), the core covered by the specification:
price-range filtering, sales ranking, the affordable-bestseller pipeline,
product/category/merchant/platform statistics and the platform scorer.

Modelling conventions:
* A product dictionary becomes the `Product` structure.  The source reads
  every field with `dict.get(key, default)`; a missing numeric field is
  indistinguishable from its default (0 for `price`/`rating`/`sold`, `""`
  for `name`), so those fields are embedded with the default applied.
  String keys that are read with *different* defaults at different call
  sites (`platform`, `shop_id`, `shop_location`) are kept as `Option`.
* Python floats are embedded as exact rationals (`ℚ`).
* Python's `sorted` is a stable sort; `sorted(key=k, reverse=True)` keeps
  tied elements in input order.  It is embedded as `List.insertionSort`
  with the corresponding total preorder, which is the same (unique) stable
  sort.
* Python dicts iterate in insertion order; `dict`/`defaultdict`/`Counter`
  accumulations are embedded as association lists in first-occurrence
  order (`groupByKey`).
* Functions that can return `{'error': msg}` are embedded as
  `Except String`, carrying the source's message strings.
* `f"..."` number formatting inside advisory strings is rendered with
  `toString` on `ℚ`; only the numeric derivations matter to the spec.
-/

/-- One normalized product listing (the dict shape consumed by
`AdvancedAnalyzer`). -/
structure Product where
  name : String := ""
  price : ℚ := 0
  rating : ℚ := 0
  sold : ℕ := 0
  platform : Option String := none
  shop_id : Option String := none
  shop_location : Option String := none
deriving DecidableEq

instance {ε α : Type} [DecidableEq ε] [DecidableEq α] : DecidableEq (Except ε α) :=
  fun a b =>
    match a, b with
    | .error e, .error e' => decidable_of_iff (e = e') (by simp)
    | .error _, .ok _ => isFalse (by simp)
    | .ok _, .error _ => isFalse (by simp)
    | .ok x, .ok y => decidable_of_iff (x = y) (by simp)

/-- `statistics.mean` over rationals (callers guard non-emptiness; on `[]`
this is `0 / 0 = 0` where Python would raise). -/
def mean (l : List ℚ) : ℚ := l.sum / l.length

/-- `statistics.mean` of a list of integer counts. -/
def meanN (l : List ℕ) : ℚ := mean (l.map (fun n => (n : ℚ)))

/-- The ascending sort performed inside `statistics.median`. -/
def sortQ (l : List ℚ) : List ℚ := l.insertionSort (· ≤ ·)

/-- `statistics.median`: middle element of the sorted data for odd length,
mean of the two middle elements for even length (callers guard
non-emptiness; Python raises on empty data). -/
def median (l : List ℚ) : ℚ :=
  let s := sortQ l
  let n := s.length
  if n % 2 = 1 then s.getD (n / 2) 0
  else (s.getD (n / 2 - 1) 0 + s.getD (n / 2) 0) / 2

/-- Sample variance with the `n-1` denominator.  `statistics.stdev` is its
square root; the square is carried to stay inside `ℚ` (no claim touches
the standard deviation itself). -/
def sampleVar (l : List ℚ) : ℚ :=
  (l.map (fun x => (x - mean l) ^ 2)).sum / ((l.length : ℚ) - 1)

/-- The recurring comprehension
`[p.get('price', 0) for p in products if p.get('price', 0) > 0]`. -/
def positivePrices (products : List Product) : List ℚ :=
  (products.filter (fun p => decide (0 < p.price))).map Product.price

/-- The recurring comprehension
`[p.get('rating', 0) for p in products if p.get('rating', 0) > 0]`. -/
def positiveRatings (products : List Product) : List ℚ :=
  (products.filter (fun p => decide (0 < p.rating))).map Product.rating

/-- `[p.get('sold', 0) for p in products]` (no validity filter). -/
def soldCounts (products : List Product) : List ℕ :=
  products.map Product.sold

/-- `[p.get('sold', 0) for p in products if p.get('sold', 0) > 0]`. -/
def positiveSold (products : List Product) : List ℕ :=
  (products.filter (fun p => decide (0 < p.sold))).map Product.sold

/-- `AdvancedAnalyzer.filter_by_price_range`: keep products with
`price > 0` and `min_price <= price and (max_price is None or
price <= max_price)`. -/
def filter_by_price_range (products : List Product) (max_price : Option ℚ := none)
    (min_price : ℚ := 0) : List Product :=
  products.filter fun p =>
    decide (0 < p.price) &&
      (decide (min_price ≤ p.price) &&
        match max_price with
        | none => true
        | some m => decide (p.price ≤ m))

/-- The order used by `rank_by_sales`: `sorted(key=lambda x: x.get('sold', 0),
reverse=descending)`.  `soldRel true a b` means `a` may precede `b` in the
descending result. -/
def soldRel (descending : Bool) (a b : Product) : Prop :=
  if descending then b.sold ≤ a.sold else a.sold ≤ b.sold

instance (d : Bool) : DecidableRel (soldRel d) := fun a b => by
  unfold soldRel; infer_instance

instance (d : Bool) : IsTotal Product (soldRel d) :=
  ⟨by intro a b; unfold soldRel; cases d <;> simp <;> omega⟩

instance (d : Bool) : IsTrans Product (soldRel d) :=
  ⟨by intro a b c; unfold soldRel; cases d <;> simp <;> omega⟩

/-- `AdvancedAnalyzer.rank_by_sales`: stable sort by sales volume
(Python's `sorted` is stable; with `reverse=True` ties keep input order,
which is exactly the stable insertion sort under `soldRel`). -/
def rank_by_sales (products : List Product) (descending : Bool := true) :
    List Product :=
  products.insertionSort (soldRel descending)

/-- Summary block of `_analyze_top_sellers` (returned for non-empty input;
the source returns `{}` on empty input, modelled as `none` below). -/
structure TopSellerSummary where
  avg_price : ℚ
  avg_sales : ℚ
  total_sales_volume : ℕ
  avg_rating : ℚ
  avg_price_to_sales_ratio : ℚ
  high_performers : ℕ
deriving DecidableEq

/-- `AdvancedAnalyzer._analyze_top_sellers`. -/
def analyze_top_sellers (products : List Product) : Option TopSellerSummary :=
  if products.isEmpty then none
  else
    let prices := positivePrices products
    let sales := soldCounts products
    let ratings := positiveRatings products
    let price_to_sales :=
      (products.filter (fun p => decide (0 < p.sold) && decide (0 < p.price))).map
        (fun p => p.price / (p.sold : ℚ))
    some
      { avg_price := if prices.isEmpty then 0 else mean prices
        avg_sales := if sales.isEmpty then 0 else meanN sales
        total_sales_volume := sales.sum
        avg_rating := if ratings.isEmpty then 0 else mean ratings
        avg_price_to_sales_ratio :=
          if price_to_sales.isEmpty then 0 else mean price_to_sales
        high_performers := (products.filter (fun p => decide (1000 < p.sold))).length }

/-- Result dictionary of `get_top_sellers` (non-error case). -/
structure TopSellersResult where
  top_sellers : List Product
  count : ℕ
  total_filtered : ℕ
  filter_applied : Option ℚ
  top_seller_analysis : Option TopSellerSummary
deriving DecidableEq

/-- `AdvancedAnalyzer.get_top_sellers`: price-filter only when `max_price`
is not `None`, rank by sales, truncate to `top_n`.  `filter_applied`
models `{'max_price': max_price} if max_price else None`, which is also
`None` for a (falsy) `max_price` of 0. -/
def get_top_sellers (products : List Product) (top_n : ℕ := 50)
    (max_price : Option ℚ := none) : Except String TopSellersResult :=
  let filtered :=
    match max_price with
    | some m => filter_by_price_range products (some m)
    | none => products
  let ranked := rank_by_sales filtered
  let top_products := ranked.take top_n
  if top_products.isEmpty then .error "No products found matching criteria"
  else
    .ok
      { top_sellers := top_products
        count := top_products.length
        total_filtered := filtered.length
        filter_applied :=
          match max_price with
          | some m => if m = 0 then none else some m
          | none => none
        top_seller_analysis := analyze_top_sellers top_products }

/-- Result dictionary of `_analyze_sales` (non-error case). -/
structure SalesMetrics where
  total_sales : ℕ
  average_sales : ℚ
  median_sales : ℚ
  min_sales : ℕ
  max_sales : ℕ
  sales_range : ℕ
  bestseller_threshold : ℚ
  total_products_sold : ℕ
deriving DecidableEq

/-- `AdvancedAnalyzer._analyze_sales`: statistics over the `sold` values
that are strictly positive (`if p.get('sold', 0) > 0`). -/
def analyze_sales (products : List Product) : Except String SalesMetrics :=
  let sales := positiveSold products
  if sales.isEmpty then .error "No valid sales data found"
  else
    .ok
      { total_sales := sales.sum
        average_sales := meanN sales
        median_sales := median (sales.map (fun n => (n : ℚ)))
        min_sales := (sales.min?).getD 0
        max_sales := (sales.max?).getD 0
        sales_range := (sales.max?).getD 0 - (sales.min?).getD 0
        bestseller_threshold := median (sales.map (fun n => (n : ℚ)))
        total_products_sold := sales.length }

/-- Result dictionary of `_analyze_prices` (non-error case). -/
structure PriceMetrics where
  average_price : ℚ
  median_price : ℚ
  min_price : ℚ
  max_price : ℚ
  price_range : ℚ
  price_var : ℚ
  total_products_with_price : ℕ
deriving DecidableEq

/-- `AdvancedAnalyzer._analyze_prices`.  `price_var` carries the sample
variance whose square root is the source's `price_std`
(`statistics.stdev(prices) if len(prices) > 1 else 0`). -/
def analyze_prices (products : List Product) : Except String PriceMetrics :=
  let prices := positivePrices products
  if prices.isEmpty then .error "No valid price data found"
  else
    .ok
      { average_price := mean prices
        median_price := median prices
        min_price := (prices.min?).getD 0
        max_price := (prices.max?).getD 0
        price_range := (prices.max?).getD 0 - (prices.min?).getD 0
        price_var := if 1 < prices.length then sampleVar prices else 0
        total_products_with_price := prices.length }

/-- Result dictionary of `_analyze_ratings` (non-error case). -/
structure RatingMetrics where
  average_rating : ℚ
  median_rating : ℚ
  min_rating : ℚ
  max_rating : ℚ
  high_rated_count : ℕ
  low_rated_count : ℕ
  high_rated_percentage : ℚ
  total_products_with_rating : ℕ
  high_rated_products : List Product
deriving DecidableEq

/-- `AdvancedAnalyzer._analyze_ratings`. -/
def analyze_ratings (products : List Product) : Except String RatingMetrics :=
  let ratings := positiveRatings products
  if ratings.isEmpty then .error "No valid rating data found"
  else
    let high_rated := ratings.filter (fun r => decide (4 ≤ r))
    let low_rated := ratings.filter (fun r => decide (r < 3))
    .ok
      { average_rating := mean ratings
        median_rating := median ratings
        min_rating := (ratings.min?).getD 0
        max_rating := (ratings.max?).getD 0
        high_rated_count := high_rated.length
        low_rated_count := low_rated.length
        high_rated_percentage := ((high_rated.length : ℚ) / (ratings.length : ℚ)) * 100
        total_products_with_rating := ratings.length
        high_rated_products :=
          (products.filter (fun p => decide (4 ≤ p.rating))).take 10 }

/-- One step of the dict-accumulation loops (`defaultdict(list)` /
`platforms[platform].append(product)`): append `x` to the bucket of `k`,
creating the bucket at the end on first occurrence. -/
def insertGroup {α : Type} (k : String) (x : α) :
    List (String × List α) → List (String × List α)
  | [] => [(k, [x])]
  | (k', xs) :: rest =>
    if k = k' then (k', xs ++ [x]) :: rest
    else (k', xs) :: insertGroup k x rest

/-- Grouping a list by a string key, buckets and keys in first-occurrence
order — the Python `dict`/`defaultdict` accumulation pattern. -/
def groupByKey {α : Type} (key : α → String) (l : List α) :
    List (String × List α) :=
  l.foldl (fun acc x => insertGroup (key x) x acc) []

/-- `max(seq, key=f)` on a Python sequence: the first element attaining
the maximal key (`none` for an empty sequence). -/
def firstMaxBy {α : Type} {β : Type} [LinearOrder β] (f : α → β) :
    List α → Option α
  | [] => none
  | a :: t => some (t.foldl (fun best x => if f best < f x then x else best) a)

/-- The ordered keyword table of `_categorize_affordable_products`
(Python dicts preserve declaration order). -/
def category_keywords : List (String × List String) :=
  [("electronics", ["phone", "charger", "cable", "earphone", "headphone",
      "mouse", "keyboard", "usb"]),
   ("home_kitchen", ["kitchen", "storage", "container", "organizer", "rack",
      "holder", "bottle"]),
   ("fashion", ["shirt", "pants", "socks", "shoes", "bag", "wallet", "watch",
      "belt"]),
   ("beauty", ["skincare", "makeup", "cream", "serum", "mask", "cosmetic",
      "lipstick"]),
   ("stationery", ["pen", "notebook", "pencil", "marker", "paper", "file",
      "folder"]),
   ("toys_hobbies", ["toy", "game", "puzzle", "hobby", "craft", "diy"]),
   ("health", ["vitamin", "supplement", "health", "fitness", "wellness"])]

/-- `name.lower()`: map `Char.toLower` over the characters (the same
function `String.toLower` maps, expressed over the character list so that
it evaluates by kernel reduction). -/
def strLower (s : String) : String := String.mk (s.toList.map Char.toLower)

/-- Substring test on character lists (Python's `needle in hay`). -/
def charsContain (needle : List Char) : List Char → Bool
  | [] => needle.isEmpty
  | c :: t => needle.isPrefixOf (c :: t) || charsContain needle t

/-- `needle in hay` for strings. -/
def strContains (hay needle : String) : Bool :=
  charsContain needle.toList hay.toList

/-- `any(keyword in name for keyword in keywords)` against an
already-lowercased name. -/
def matchesCategory (lname : String) (ck : String × List String) : Bool :=
  ck.2.any (fun kw => strContains lname kw)

/-- The category assignment of `_categorize_affordable_products`:
lowercase the name, walk the keyword table in order, first matching
category wins, otherwise the `'others'` fallback bucket. -/
def categorize_product (name : String) : String :=
  let lname := strLower name
  match category_keywords.find? (fun ck => matchesCategory lname ck) with
  | some ck => ck.1
  | none => "others"

/-- Per-category statistics block of `_categorize_affordable_products`. -/
structure CategoryStat where
  product_count : ℕ
  avg_price : ℚ
  total_sales : ℕ
  avg_sales_per_product : ℚ
  top_product : Option Product
deriving DecidableEq

/-- The `category_stats[category]` computation (`top_product` is
`max(cat_products, key=sold) if cat_products else None`, i.e. the first
product attaining the maximal `sold`). -/
def categoryStatOf (cat_products : List Product) : CategoryStat :=
  let prices := positivePrices cat_products
  let sales := soldCounts cat_products
  { product_count := cat_products.length
    avg_price := if prices.isEmpty then 0 else mean prices
    total_sales := sales.sum
    avg_sales_per_product := if sales.isEmpty then 0 else meanN sales
    top_product := firstMaxBy Product.sold cat_products }

/-- Result dictionary of `_categorize_affordable_products`. -/
structure CategoryInsights where
  categories : List (String × List Product)
  category_stats : List (String × CategoryStat)
  top_category : Option String
  category_count : ℕ
deriving DecidableEq

/-- `AdvancedAnalyzer._categorize_affordable_products`: bucket products by
`categorize_product`, compute per-bucket statistics, and pick the most
profitable category (`max(keys, key=total_sales)`, `None` when there are
no buckets). -/
def categorize_affordable_products (products : List Product) : CategoryInsights :=
  let categories := groupByKey (fun p => categorize_product p.name) products
  let category_stats := categories.map (fun g => (g.1, categoryStatOf g.2))
  { categories := categories
    category_stats := category_stats
    top_category := (firstMaxBy (fun g => g.2.total_sales) category_stats).map Prod.fst
    category_count := categories.length }

/-- `product.get('platform', 'unknown')` — the grouping key of
`compare_platforms` and of the platform counters. -/
def platformKey (p : Product) : String := p.platform.getD "unknown"

/-- `product.get('shop_id', 'unknown')` — the grouping key of
`_analyze_merchants`. -/
def shopKey (p : Product) : String := p.shop_id.getD "unknown"

/-- Result dictionary of `_analyze_platform_breakdown`. -/
structure PlatformBreakdown where
  platform_distribution : List (String × ℕ)
  total_platforms : ℕ
  dominant_platform : Option (String × ℕ)
deriving DecidableEq

/-- `AdvancedAnalyzer._analyze_platform_breakdown`: `Counter` of platform
keys (counts in first-occurrence order); `dominant_platform` is
`most_common(1)[0]` when the counter is non-empty, i.e. the first
key attaining the maximal count. -/
def analyze_platform_breakdown (products : List Product) : PlatformBreakdown :=
  let platform_counts := (groupByKey platformKey products).map (fun g => (g.1, g.2.length))
  { platform_distribution := platform_counts
    total_platforms := platform_counts.length
    dominant_platform := firstMaxBy Prod.snd platform_counts }

/-- Per-merchant statistics block of `_analyze_merchants`. -/
structure MerchantStat where
  product_count : ℕ
  avg_price : ℚ
  avg_rating : ℚ
  location : String
  platform : String
deriving DecidableEq

/-- The `merchant_stats[shop_id]` computation (`location`/`platform` come
from the group's first product, read with default `''`; groups produced by
the accumulation loop are never empty). -/
def merchantStatOf (shop_products : List Product) : MerchantStat :=
  let prices := positivePrices shop_products
  let ratings := positiveRatings shop_products
  { product_count := shop_products.length
    avg_price := if prices.isEmpty then 0 else mean prices
    avg_rating := if ratings.isEmpty then 0 else mean ratings
    location := ((shop_products.head?).bind Product.shop_location).getD ""
    platform := ((shop_products.head?).bind Product.platform).getD "" }

/-- The descending sort key of `top_merchants`:
`sorted(items, key=lambda x: (avg_rating, product_count), reverse=True)`.
`merchantRel a b` means `a` may precede `b` (its key pair is
lexicographically at least `b`'s). -/
def merchantRel (a b : String × MerchantStat) : Prop :=
  b.2.avg_rating < a.2.avg_rating ∨
    (b.2.avg_rating = a.2.avg_rating ∧ b.2.product_count ≤ a.2.product_count)

instance : DecidableRel merchantRel := fun a b => by
  unfold merchantRel; infer_instance

/-- Result dictionary of `_analyze_merchants`. -/
structure MerchantAnalysis where
  total_merchants : ℕ
  merchant_stats : List (String × MerchantStat)
  top_merchants : List (String × MerchantStat)
  avg_products_per_merchant : ℚ
deriving DecidableEq

/-- `AdvancedAnalyzer._analyze_merchants` (called on non-empty input
only, so the grouping and the mean over group sizes are non-trivial). -/
def analyze_merchants (products : List Product) : MerchantAnalysis :=
  let merchants := groupByKey shopKey products
  let merchant_stats := merchants.map (fun g => (g.1, merchantStatOf g.2))
  { total_merchants := merchants.length
    merchant_stats := merchant_stats
    top_merchants := (merchant_stats.insertionSort merchantRel).take 5
    avg_products_per_merchant := meanN (merchants.map (fun g => g.2.length)) }

/-- The full metrics dictionary `_calculate_platform_metrics` builds for a
non-empty group. -/
structure PlatformMetrics where
  product_count : ℕ
  avg_price : ℚ
  avg_rating : ℚ
  total_sold : ℕ
  price_score : ℚ
  rating_score : ℚ
  availability_score : ℚ
  score : ℚ
deriving DecidableEq

/-- Return value of `_calculate_platform_metrics`: for an empty group the
source returns the single-key dictionary `{'score': 0}`. -/
inductive PlatformReport where
  | empty_group
  | metrics (m : PlatformMetrics)
deriving DecidableEq

/-- `report.get('score', 0)` (0 on the empty-group dictionary). -/
def PlatformReport.score : PlatformReport → ℚ
  | .empty_group => 0
  | .metrics m => m.score

/-- `report.get('product_count', 0)` (0 on the empty-group dictionary). -/
def PlatformReport.product_count : PlatformReport → ℕ
  | .empty_group => 0
  | .metrics m => m.product_count

/-- `AdvancedAnalyzer._calculate_platform_metrics` — the Scorer:
`price_score = 50 if not prices else min(50, (200 / mean(prices)) * 10)`,
`rating_score = (mean(ratings) / 5.0) * 30 if ratings else 0`,
`availability_score = min(20, len(products))`. -/
def calculate_platform_metrics (products : List Product) : PlatformReport :=
  if products.isEmpty then .empty_group
  else
    let prices := positivePrices products
    let ratings := positiveRatings products
    let sold_counts := soldCounts products
    let price_score : ℚ :=
      if prices.isEmpty then 50 else min 50 ((200 / mean prices) * 10)
    let rating_score : ℚ :=
      if ratings.isEmpty then 0 else (mean ratings / 5) * 30
    let availability_score : ℚ := min 20 (products.length : ℚ)
    .metrics
      { product_count := products.length
        avg_price := if prices.isEmpty then 0 else mean prices
        avg_rating := if ratings.isEmpty then 0 else mean ratings
        total_sold := sold_counts.sum
        price_score := price_score
        rating_score := rating_score
        availability_score := availability_score
        score := price_score + rating_score + availability_score }

/-- Result dictionary of `compare_platforms` (non-error case; the
`summary` sub-dictionary is flattened into the last three fields). -/
structure PlatformComparison where
  platform_metrics : List (String × PlatformReport)
  total_platforms : ℕ
  best_platform : String
  platform_scores : List (String × ℚ)
deriving DecidableEq

/-- `AdvancedAnalyzer.compare_platforms`: group by platform (missing key →
`'unknown'`), score each group, and pick as best platform the first key
attaining the maximal score (`best_platform` keeps its initial `''` and
`platform_scores` its initial `{}` when there are no metrics). -/
def compare_platforms (products : List Product) :
    Except String PlatformComparison :=
  if products.isEmpty then .error "No products provided for comparison"
  else
    let platforms := groupByKey platformKey products
    let platform_metrics :=
      platforms.map (fun g => (g.1, calculate_platform_metrics g.2))
    .ok
      { platform_metrics := platform_metrics
        total_platforms := platforms.length
        best_platform :=
          match firstMaxBy (fun g => PlatformReport.score g.2) platform_metrics with
          | some g => g.1
          | none => ""
        platform_scores :=
          if platform_metrics.isEmpty then []
          else platform_metrics.map (fun g => (g.1, PlatformReport.score g.2)) }

/-- Result dictionary of `analyze_products` (non-error case). -/
structure ProductAnalysis where
  total_products : ℕ
  price_analysis : Except String PriceMetrics
  rating_analysis : Except String RatingMetrics
  merchant_analysis : MerchantAnalysis
  category_analysis : CategoryInsights
  platform_breakdown : PlatformBreakdown
deriving DecidableEq

/-- `AdvancedAnalyzer.analyze_products`: empty input is the only
whole-report error; each sub-analysis carries its own error marker. -/
def analyze_products (products : List Product) : Except String ProductAnalysis :=
  if products.isEmpty then .error "No products provided for analysis"
  else
    .ok
      { total_products := products.length
        price_analysis := analyze_prices products
        rating_analysis := analyze_ratings products
        merchant_analysis := analyze_merchants products
        category_analysis := categorize_affordable_products products
        platform_breakdown := analyze_platform_breakdown products }

/-- `AdvancedAnalyzer._generate_bestseller_recommendations` (the
`max_price` parameter is unused in the source body; `:.2f`/`:.0f`/`int()`
formatting is rendered with `toString`). -/
def generate_bestseller_recommendations (products : List Product)
    (max_price : ℚ) : List String :=
  if products.isEmpty then ["No data available for recommendations"]
  else
    let prices := positivePrices products
    let price_recs :=
      if prices.isEmpty then []
      else
        let avg_price := mean prices
        let low_price := prices.filter (fun x => decide (x < avg_price * (7 / 10)))
        ["Sweet spot  price for bestsellers: RM" ++ toString avg_price ++
            " (avg of top performers)"] ++
          (if (prices.length : ℚ) * (3 / 10) ≤ (low_price.length : ℚ) then
            ["Budget items (under RM" ++ toString (avg_price * (7 / 10)) ++
              ") represent " ++
              toString (((low_price.length : ℚ) / (prices.length : ℚ)) * 100) ++
              "% of bestsellers"]
          else [])
    let sales := positiveSold products
    let sales_recs :=
      if sales.isEmpty then []
      else
        ["Target sales benchmark: " ++
          toString (median (sales.map (fun n => (n : ℚ)))) ++
          " units sold (median of top sellers)"]
    let platforms := (groupByKey platformKey products).map (fun g => (g.1, g.2.length))
    let platform_recs :=
      match firstMaxBy Prod.snd platforms with
      | some top_platform =>
        ["Most successful platform: " ++ top_platform.1 ++ " (" ++
          toString top_platform.2 ++ " items in top sellers)"]
      | none => []
    price_recs ++ sales_recs ++ platform_recs

/-- The `summary` block of `analyze_affordable_bestsellers`. -/
structure BestsellerSummary where
  total_affordable_products : ℕ
  top_sellers_count : ℕ
  price_threshold : ℚ
  currency : String
deriving DecidableEq

/-- Result dictionary of `analyze_affordable_bestsellers`
(non-error case). -/
structure BestsellerAnalysis where
  summary : BestsellerSummary
  price_metrics : Except String PriceMetrics
  sales_metrics : Except String SalesMetrics
  rating_metrics : Except String RatingMetrics
  platform_distribution : PlatformBreakdown
  category_insights : CategoryInsights
  top_products : List Product
  all_top_sellers : List Product
  recommendations : List String
deriving DecidableEq

/-- The error message `f'No products found under RM{max_price}'`. -/
def noProductsUnderMsg (max_price : ℚ) : String :=
  "No products found under RM" ++ toString max_price

/-- `AdvancedAnalyzer.analyze_affordable_bestsellers` — the Bestseller
Pipeline: price-ceiling filter, error if the filtered set is empty,
`get_top_sellers` on the affordable set (its error propagates), then the
comprehensive report over the top sellers. -/
def analyze_affordable_bestsellers (products : List Product)
    (max_price : ℚ := 50) (top_n : ℕ := 50) :
    Except String BestsellerAnalysis :=
  let affordable := filter_by_price_range products (some max_price)
  if affordable.isEmpty then .error (noProductsUnderMsg max_price)
  else
    match get_top_sellers affordable top_n with
    | .error e => .error e
    | .ok ts =>
      let top_sellers := ts.top_sellers
      .ok
        { summary :=
            { total_affordable_products := affordable.length
              top_sellers_count := top_sellers.length
              price_threshold := max_price
              currency := "MYR" }
          price_metrics := analyze_prices top_sellers
          sales_metrics := analyze_sales top_sellers
          rating_metrics := analyze_ratings top_sellers
          platform_distribution := analyze_platform_breakdown top_sellers
          category_insights := categorize_affordable_products top_sellers
          top_products := top_sellers.take 10
          all_top_sellers := top_sellers
          recommendations :=
            generate_bestseller_recommendations top_sellers max_price }

/-! ### Helper lemmas about the embedded statistics and grouping -/

theorem mean_pos {l : List ℚ} (h : ∀ x ∈ l, 0 < x) (hne : l ≠ []) : 0 < mean l := by
  unfold mean
  apply div_pos (List.sum_pos l h hne)
  exact_mod_cast List.length_pos.mpr hne

theorem mean_le_of_forall_le {l : List ℚ} {c : ℚ} (h : ∀ x ∈ l, x ≤ c)
    (hne : l ≠ []) : mean l ≤ c := by
  unfold mean
  have hl : (0 : ℚ) < l.length := by exact_mod_cast List.length_pos.mpr hne
  rw [div_le_iff hl]
  calc l.sum ≤ l.length • c := List.sum_le_card_nsmul l c h
    _ = c * l.length := by rw [nsmul_eq_mul]; ring

theorem positivePrices_pos {l : List Product} : ∀ x ∈ positivePrices l, 0 < x := by
  intro x hx
  unfold positivePrices at hx
  obtain ⟨q, hq, rfl⟩ := List.mem_map.mp hx
  simpa using List.of_mem_filter hq

theorem positiveRatings_pos {l : List Product} : ∀ x ∈ positiveRatings l, 0 < x := by
  intro x hx
  unfold positiveRatings at hx
  obtain ⟨q, hq, rfl⟩ := List.mem_map.mp hx
  simpa using List.of_mem_filter hq

/-- The bucket of key `k` in an association-list grouping (empty when the
key is absent). -/
def bucketOf {α : Type} : List (String × List α) → String → List α
  | [], _ => []
  | (k', xs) :: rest, k => if k = k' then xs else bucketOf rest k

theorem bucketOf_insertGroup {α : Type} (k k' : String) (x : α) :
    ∀ g : List (String × List α),
      bucketOf (insertGroup k' x g) k = bucketOf g k ++ (if k = k' then [x] else [])
  | [] => by
    simp only [insertGroup, bucketOf]
    split <;> simp
  | (k'', xs) :: rest => by
    by_cases h1 : k' = k''
    · subst h1
      by_cases h2 : k = k'
      · subst h2; simp [insertGroup, bucketOf]
      · simp [insertGroup, bucketOf, h2]
    · by_cases h2 : k = k''
      · subst h2
        have hkk : k ≠ k' := fun h => h1 h.symm
        simp [insertGroup, bucketOf, h1, hkk]
      · simp [insertGroup, bucketOf, h1, h2, bucketOf_insertGroup k k' x rest]

theorem bucketOf_foldl {α : Type} (key : α → String) (k : String) :
    ∀ (l : List α) (acc : List (String × List α)),
      bucketOf (l.foldl (fun a x => insertGroup (key x) x a) acc) k =
        bucketOf acc k ++ l.filter (fun x => key x == k)
  | [], acc => by simp
  | x :: l, acc => by
    rw [List.foldl_cons, bucketOf_foldl key k l _, bucketOf_insertGroup]
    by_cases h : key x = k
    · simp [List.filter_cons, h, List.append_assoc]
    · have h' : k ≠ key x := fun hk => h hk.symm
      simp [List.filter_cons, h, h']

theorem bucketOf_groupByKey {α : Type} (key : α → String) (k : String) (l : List α) :
    bucketOf (groupByKey key l) k = l.filter (fun x => key x == k) := by
  simpa [bucketOf] using bucketOf_foldl key k l []

theorem mem_bucketOf_groupByKey {α : Type} (key : α → String) {l : List α} {x : α}
    (hx : x ∈ l) : x ∈ bucketOf (groupByKey key l) (key x) := by
  rw [bucketOf_groupByKey]
  exact List.mem_filter.mpr ⟨hx, by simp⟩

theorem sizes_insertGroup {α : Type} (k : String) (x : α) :
    ∀ g : List (String × List α),
      ((insertGroup k x g).map (fun e => e.2.length)).sum =
        (g.map (fun e => e.2.length)).sum + 1
  | [] => by simp [insertGroup]
  | (k', xs) :: rest => by
    by_cases h : k = k'
    · simp [insertGroup, h]; omega
    · simp [insertGroup, h, sizes_insertGroup k x rest]; omega

theorem sizes_foldl {α : Type} (key : α → String) :
    ∀ (l : List α) (acc : List (String × List α)),
      ((l.foldl (fun a x => insertGroup (key x) x a) acc).map
          (fun e => e.2.length)).sum =
        (acc.map (fun e => e.2.length)).sum + l.length
  | [], acc => by simp
  | x :: l, acc => by
    rw [List.foldl_cons, sizes_foldl key l _, sizes_insertGroup]
    simp; omega

theorem sizes_groupByKey {α : Type} (key : α → String) (l : List α) :
    (((groupByKey key l)).map (fun e => e.2.length)).sum = l.length := by
  simpa [groupByKey] using sizes_foldl key l []

theorem ne_nil_insertGroup {α : Type} (k : String) (x : α)
    {g : List (String × List α)} (hg : ∀ e ∈ g, e.2 ≠ []) :
    ∀ e ∈ insertGroup k x g, e.2 ≠ [] := by
  induction g with
  | nil => intro e he; simp [insertGroup] at he; simp [he]
  | cons hd tl ih =>
    intro e he
    obtain ⟨k', xs⟩ := hd
    by_cases h : k = k'
    · simp [insertGroup, h] at he
      rcases he with he | he
      · simp [he]
      · exact hg e (List.mem_cons_of_mem _ he)
    · simp only [insertGroup, if_neg h, List.mem_cons] at he
      rcases he with he | he
      · exact hg e (he ▸ List.mem_cons_self _ _)
      · exact ih (fun e' he' => hg e' (List.mem_cons_of_mem _ he')) e he

theorem ne_nil_groupByKey {α : Type} (key : α → String) (l : List α) :
    ∀ e ∈ groupByKey key l, e.2 ≠ [] := by
  suffices h : ∀ (l : List α) (acc : List (String × List α)),
      (∀ e ∈ acc, e.2 ≠ []) →
      ∀ e ∈ l.foldl (fun a x => insertGroup (key x) x a) acc, e.2 ≠ [] by
    exact h l [] (by simp)
  intro l
  induction l with
  | nil => intro acc hacc e he; exact hacc e he
  | cons x t ih =>
    intro acc hacc e he
    exact ih _ (ne_nil_insertGroup (key x) x hacc) e he

/-! ### C3: soundness of the price-range filter -/

/-- C3: every record in `filter_by_price_range`'s output has a strictly
positive price, is at least `min_price`, and is at most `max_price`
whenever that ceiling is set; in particular records with `price ≤ 0`
never appear in the output. -/
theorem filter_by_price_range_bounds (products : List Product)
    (max_price : Option ℚ) (min_price : ℚ) (p : Product)
    (hp : p ∈ filter_by_price_range products max_price min_price) :
    0 < p.price ∧ min_price ≤ p.price ∧
      ∀ m, max_price = some m → p.price ≤ m := by
  unfold filter_by_price_range at hp
  obtain ⟨-, hcond⟩ := List.mem_filter.mp hp
  cases max_price with
  | none =>
    simp only [Bool.and_eq_true, decide_eq_true_eq] at hcond
    exact ⟨hcond.1, hcond.2.1, by simp⟩
  | some m =>
    simp only [Bool.and_eq_true, decide_eq_true_eq] at hcond
    refine ⟨hcond.1, hcond.2.1, ?_⟩
    intro m' hm'
    cases hm'
    exact hcond.2.2

/-- C3 witness. -/
theorem filter_by_price_range_bounds_witness :
    0 < ({ price := 5 } : Product).price ∧
      (0 : ℚ) ≤ ({ price := 5 } : Product).price ∧
      ∀ m, (none : Option ℚ) = some m → ({ price := 5 } : Product).price ≤ m :=
  filter_by_price_range_bounds [{ price := 5 }] none 0 _ (by decide)

/-! ### C4: ranking is a stable descending sort -/

/-- C4: `rank_by_sales` (descending) returns a permutation of its input
that is sorted by `sold` descending, and it is stable: for every sales
count `s`, the records with `sold = s` appear in the output in exactly
their input order. -/
theorem rank_by_sales_stable_desc (l : List Product) :
    List.Perm (rank_by_sales l true) l ∧
    List.Sorted (fun a b => b.sold ≤ a.sold) (rank_by_sales l true) ∧
    ∀ s : ℕ, (rank_by_sales l true).filter (fun p => p.sold == s) =
      l.filter (fun p => p.sold == s) := by
  refine ⟨List.perm_insertionSort _ l, ?_, ?_⟩
  · have h := List.sorted_insertionSort (soldRel true) l
    exact h.imp (fun hab => by simpa [soldRel] using hab)
  · intro s
    have hpair : (l.filter (fun p => p.sold == s)).Pairwise (soldRel true) := by
      apply List.pairwise_of_forall_mem_list
      intro a ha b hb
      have ha' := List.of_mem_filter ha
      have hb' := List.of_mem_filter hb
      simp only [beq_iff_eq] at ha' hb'
      simp [soldRel, ha', hb']
    have hsub : List.Sublist (l.filter (fun p => p.sold == s))
        (List.insertionSort (soldRel true) l) :=
      List.sublist_insertionSort hpair (List.filter_sublist l)
    have hsub2 := hsub.filter (fun p => p.sold == s)
    have hff : (l.filter (fun p => p.sold == s)).filter (fun p => p.sold == s) =
        l.filter (fun p => p.sold == s) :=
      List.filter_eq_self.mpr (fun a ha => (List.mem_filter.mp ha).2)
    rw [hff] at hsub2
    have hlen : ((List.insertionSort (soldRel true) l).filter
          (fun p => p.sold == s)).length =
        (l.filter (fun p => p.sold == s)).length :=
      ((List.perm_insertionSort (soldRel true) l).filter
        (fun p => p.sold == s)).length_eq
    exact (hsub2.eq_of_length hlen.symm).symm

/-! ### C1: empty input to the bestseller pipeline -/

/-- C1 counterexample: on an empty input collection the bestseller
pipeline does NOT report a "no products provided" error — it falls
straight through the price filter and reports the same
`'No products found under RM{max_price}'` message as an empty filter
result (the "no products provided" wording exists only in
`analyze_products` / `compare_platforms`). -/
theorem bestseller_empty_input_counterexample :
    analyze_affordable_bestsellers [] 50 50 =
      .error "No products found under RM50" ∧
    "No products found under RM50" ≠ "No products provided for analysis" ∧
    "No products found under RM50" ≠ "No products provided for comparison" :=
  ⟨rfl, by decide, by decide⟩

/-- C1 (amended): whenever the price-ceiling filter leaves nothing — in
particular whenever the input collection is empty — the pipeline reports
the single `'No products found under RM{max_price}'` error; the empty
input case is not distinguished from an all-filtered-out input. -/
theorem bestseller_empty_filter_error (products : List Product)
    (max_price : ℚ) (top_n : ℕ)
    (h : filter_by_price_range products (some max_price) = []) :
    analyze_affordable_bestsellers products max_price top_n =
      .error (noProductsUnderMsg max_price) := by
  unfold analyze_affordable_bestsellers
  simp [h]

/-- C1 witness: the amended claim at the empty input. -/
theorem bestseller_empty_filter_error_witness :
    analyze_affordable_bestsellers [] 50 50 = .error (noProductsUnderMsg 50) :=
  bestseller_empty_filter_error [] 50 50 rfl

/-! ### C2: sold = 0 records and the sales statistics -/

/-- A record with zero sales, priced under the ceiling. -/
def c2zero : Product := { price := 10, sold := 0 }

/-- A record with ten sales, priced under the ceiling. -/
def c2ten : Product := { price := 10, sold := 10 }

/-- C2 counterexample: in the bestseller report over
`[c2zero, c2ten]`, `sales_metrics` is `_analyze_sales` of the ranked top
sellers `[c2ten, c2zero]`, and its `average_sales` is 10 and its
`min_sales` is 10 — not the 5 and 0 that statistics over the sold values
of *every* record (including `sold = 0`) would give. -/
theorem sales_metrics_zero_sold_counterexample :
    (analyze_affordable_bestsellers [c2zero, c2ten] 50 50).toOption.map
        BestsellerAnalysis.sales_metrics = some (analyze_sales [c2ten, c2zero]) ∧
    analyze_sales [c2ten, c2zero] =
      .ok { total_sales := 10, average_sales := 10, median_sales := 10,
            min_sales := 10, max_sales := 10, sales_range := 0,
            bestseller_threshold := 10, total_products_sold := 1 } ∧
    (10 : ℚ) ≠ (0 + 10) / 2 ∧ (10 : ℕ) ≠ 0 := by
  refine ⟨rfl, ?_, by norm_num, by decide⟩
  norm_num [analyze_sales, positiveSold, c2ten, c2zero, meanN, mean, median, sortQ]

/-- C2 (amended): every sold statistic of `_analyze_sales`
(`total_sales`, `average_sales`, `median_sales`, `min_sales`,
`max_sales`, `bestseller_threshold`) is computed over the sold values of
the records with `sold > 0` only; records with `sold = 0` are excluded
(dropping them does not change the result), and with no positive sold
value the block is the `'No valid sales data found'` error. -/
theorem analyze_sales_over_positive_sold (products : List Product)
    (h : ∃ p ∈ products, 0 < p.sold) :
    analyze_sales products =
      analyze_sales (products.filter (fun p => decide (0 < p.sold))) ∧
    ∃ m, analyze_sales products = .ok m ∧
      m.total_sales = (positiveSold products).sum ∧
      m.average_sales = meanN (positiveSold products) ∧
      m.median_sales = median ((positiveSold products).map (fun n => (n : ℚ))) ∧
      m.min_sales = ((positiveSold products).min?).getD 0 ∧
      m.max_sales = ((positiveSold products).max?).getD 0 ∧
      m.bestseller_threshold =
        median ((positiveSold products).map (fun n => (n : ℚ))) ∧
      m.total_products_sold = (positiveSold products).length := by
  obtain ⟨q, hq, hqs⟩ := h
  have hmem : q.sold ∈ positiveSold products := by
    unfold positiveSold
    exact List.mem_map_of_mem _ (List.mem_filter.mpr ⟨hq, by simpa using hqs⟩)
  have hne : (positiveSold products).isEmpty = false := by
    rw [List.isEmpty_eq_false]
    intro hnil
    rw [hnil] at hmem
    exact List.not_mem_nil _ hmem
  constructor
  · have hps : positiveSold (products.filter (fun p => decide (0 < p.sold))) =
        positiveSold products := by
      unfold positiveSold
      rw [List.filter_filter]
      simp
    unfold analyze_sales
    rw [hps]
  · have hok : analyze_sales products = .ok
        { total_sales := (positiveSold products).sum
          average_sales := meanN (positiveSold products)
          median_sales := median ((positiveSold products).map (fun n => (n : ℚ)))
          min_sales := ((positiveSold products).min?).getD 0
          max_sales := ((positiveSold products).max?).getD 0
          sales_range := ((positiveSold products).max?).getD 0 -
            ((positiveSold products).min?).getD 0
          bestseller_threshold :=
            median ((positiveSold products).map (fun n => (n : ℚ)))
          total_products_sold := (positiveSold products).length } := by
      simp only [analyze_sales, hne, Bool.false_eq_true, if_false]
    exact ⟨_, hok, rfl, rfl, rfl, rfl, rfl, rfl, rfl⟩

/-- C2 witness: the amended claim at a one-record input. -/
theorem analyze_sales_over_positive_sold_witness :
    analyze_sales [{ sold := 3 }] =
      analyze_sales ([{ sold := 3 }].filter (fun p => decide (0 < p.sold))) ∧
    ∃ m, analyze_sales [{ sold := 3 }] = .ok m ∧
      m.total_sales = (positiveSold [{ sold := 3 }]).sum ∧
      m.average_sales = meanN (positiveSold [{ sold := 3 }]) ∧
      m.median_sales =
        median ((positiveSold [{ sold := 3 }]).map (fun n => (n : ℚ))) ∧
      m.min_sales = ((positiveSold [{ sold := 3 }]).min?).getD 0 ∧
      m.max_sales = ((positiveSold [{ sold := 3 }]).max?).getD 0 ∧
      m.bestseller_threshold =
        median ((positiveSold [{ sold := 3 }]).map (fun n => (n : ℚ))) ∧
      m.total_products_sold = (positiveSold [{ sold := 3 }]).length :=
  analyze_sales_over_positive_sold [{ sold := 3 }] (by decide)

/-! ### C5: the composite platform score is bounded -/

/-- C5: for any group whose records have non-negative prices and ratings
in `[0, 5]`, the Scorer's composite score lies in `[0, 100]` (price part
capped at 50, rating part at 30, availability part at 20), and the empty
group scores exactly 0. -/
theorem platform_score_in_range (products : List Product)
    (h : ∀ p ∈ products, 0 ≤ p.price ∧ 0 ≤ p.rating ∧ p.rating ≤ 5) :
    (0 ≤ (calculate_platform_metrics products).score ∧
      (calculate_platform_metrics products).score ≤ 100) ∧
    (calculate_platform_metrics []).score = 0 := by
  refine ⟨?_, rfl⟩
  cases hemp : products.isEmpty with
  | true => simp [calculate_platform_metrics, hemp, PlatformReport.score]
  | false =>
    have hprice : 0 ≤ (if (positivePrices products).isEmpty then (50 : ℚ)
          else min 50 ((200 / mean (positivePrices products)) * 10)) ∧
        (if (positivePrices products).isEmpty then (50 : ℚ)
          else min 50 ((200 / mean (positivePrices products)) * 10)) ≤ 50 := by
      cases hp : (positivePrices products).isEmpty with
      | true => simp
      | false =>
        have hmean : 0 < mean (positivePrices products) :=
          mean_pos positivePrices_pos (List.isEmpty_eq_false.mp hp)
        have hpos : 0 < (200 / mean (positivePrices products)) * 10 := by positivity
        simp only [Bool.false_eq_true, if_false]
        exact ⟨le_min (by norm_num) hpos.le, min_le_left _ _⟩
    have hrat : 0 ≤ (if (positiveRatings products).isEmpty then (0 : ℚ)
          else (mean (positiveRatings products) / 5) * 30) ∧
        (if (positiveRatings products).isEmpty then (0 : ℚ)
          else (mean (positiveRatings products) / 5) * 30) ≤ 30 := by
      cases hr : (positiveRatings products).isEmpty with
      | true => simp
      | false =>
        have hrne : positiveRatings products ≠ [] := List.isEmpty_eq_false.mp hr
        have h1 : 0 < mean (positiveRatings products) :=
          mean_pos positiveRatings_pos hrne
        have h2 : mean (positiveRatings products) ≤ 5 := by
          apply mean_le_of_forall_le ?_ hrne
          intro x hx
          unfold positiveRatings at hx
          obtain ⟨q, hq, rfl⟩ := List.mem_map.mp hx
          exact (h q (List.mem_filter.mp hq).1).2.2
        simp only [Bool.false_eq_true, if_false]
        constructor
        · exact mul_nonneg (div_nonneg h1.le (by norm_num)) (by norm_num)
        · linarith [h2]
    have havail : 0 ≤ min (20 : ℚ) (products.length : ℚ) ∧
        min (20 : ℚ) (products.length : ℚ) ≤ 20 :=
      ⟨le_min (by norm_num) (by positivity), min_le_left _ _⟩
    simp only [calculate_platform_metrics, hemp, Bool.false_eq_true, if_false,
      PlatformReport.score]
    exact ⟨by linarith [hprice.1, hrat.1, havail.1],
      by linarith [hprice.2, hrat.2, havail.2]⟩

/-- C5 witness. -/
theorem platform_score_in_range_witness :
    (0 ≤ (calculate_platform_metrics [{ price := 10, rating := 4 }]).score ∧
      (calculate_platform_metrics [{ price := 10, rating := 4 }]).score ≤ 100) ∧
    (calculate_platform_metrics []).score = 0 :=
  platform_score_in_range [{ price := 10, rating := 4 }] (by decide)

/-! ### C6: neutral price score when no valid price exists -/

/-- C6: on any non-empty group in which no record has a strictly positive
price, the Scorer produces `price_score = 50` exactly, whatever the
ratings and availability are. -/
theorem price_score_neutral_without_prices (products : List Product)
    (hne : products ≠ []) (h : ∀ p ∈ products, ¬ 0 < p.price) :
    ∃ m, calculate_platform_metrics products = .metrics m ∧
      m.price_score = 50 := by
  have hemp : products.isEmpty = false := by
    rw [List.isEmpty_eq_false]; exact hne
  have hpr : positivePrices products = [] := by
    unfold positivePrices
    rw [List.filter_eq_nil_iff.mpr]
    · rfl
    · intro a ha
      simpa using h a ha
  have hmain : calculate_platform_metrics products = .metrics
      { product_count := products.length
        avg_price := 0
        avg_rating := if (positiveRatings products).isEmpty then 0
          else mean (positiveRatings products)
        total_sold := (soldCounts products).sum
        price_score := 50
        rating_score := if (positiveRatings products).isEmpty then 0
          else (mean (positiveRatings products) / 5) * 30
        availability_score := min 20 (products.length : ℚ)
        score := 50 + (if (positiveRatings products).isEmpty then 0
            else (mean (positiveRatings products) / 5) * 30) +
          min 20 (products.length : ℚ) } := by
    simp only [calculate_platform_metrics, hemp, Bool.false_eq_true, if_false, hpr]
    simp
  exact ⟨_, hmain, rfl⟩

/-- C6 witness: a price-less group with a full five-star rating and sales
still gets the neutral `price_score` of 50. -/
theorem price_score_neutral_without_prices_witness :
    ∃ m, calculate_platform_metrics [{ rating := 5, sold := 7 }] = .metrics m ∧
      m.price_score = 50 :=
  price_score_neutral_without_prices [{ rating := 5, sold := 7 }] (by decide)
    (by decide)

/-! ### C7: partial-failure semantics of the product report -/

/-- C7: when every record's price is 0 but some record has a positive
rating, `analyze_products` still succeeds; its `price_analysis` is the
explicit `'No valid price data found'` error while `rating_analysis` is
computed normally over the positive ratings. -/
theorem analyze_products_partial_failure (products : List Product)
    (hprice : ∀ p ∈ products, p.price = 0)
    (hrating : ∃ p ∈ products, 0 < p.rating) :
    ∃ a, analyze_products products = .ok a ∧
      a.price_analysis = .error "No valid price data found" ∧
      ∃ r, a.rating_analysis = .ok r ∧
        r.average_rating = mean (positiveRatings products) ∧
        r.median_rating = median (positiveRatings products) ∧
        r.total_products_with_rating = (positiveRatings products).length := by
  obtain ⟨q, hq, hqr⟩ := hrating
  have hne : products.isEmpty = false := by
    rw [List.isEmpty_eq_false]
    intro hnil
    subst hnil
    exact List.not_mem_nil q hq
  have hpr : positivePrices products = [] := by
    unfold positivePrices
    rw [List.filter_eq_nil_iff.mpr]
    · rfl
    · intro a ha
      simp [hprice a ha]
  have hrt : (positiveRatings products).isEmpty = false := by
    rw [List.isEmpty_eq_false]
    intro hnil
    have hmem : q.rating ∈ positiveRatings products :=
      List.mem_map_of_mem _ (List.mem_filter.mpr ⟨hq, by simpa using hqr⟩)
    rw [hnil] at hmem
    exact List.not_mem_nil _ hmem
  refine ⟨{ total_products := products.length
            price_analysis := analyze_prices products
            rating_analysis := analyze_ratings products
            merchant_analysis := analyze_merchants products
            category_analysis := categorize_affordable_products products
            platform_breakdown := analyze_platform_breakdown products },
    by simp only [analyze_products, hne, Bool.false_eq_true, if_false], ?_, ?_⟩
  · show analyze_prices products = _
    simp [analyze_prices, hpr]
  · show ∃ r, analyze_ratings products = .ok r ∧ _
    have hok : analyze_ratings products = .ok
        { average_rating := mean (positiveRatings products)
          median_rating := median (positiveRatings products)
          min_rating := ((positiveRatings products).min?).getD 0
          max_rating := ((positiveRatings products).max?).getD 0
          high_rated_count :=
            ((positiveRatings products).filter (fun r => decide (4 ≤ r))).length
          low_rated_count :=
            ((positiveRatings products).filter (fun r => decide (r < 3))).length
          high_rated_percentage :=
            ((((positiveRatings products).filter
                (fun r => decide (4 ≤ r))).length : ℚ) /
              ((positiveRatings products).length : ℚ)) * 100
          total_products_with_rating := (positiveRatings products).length
          high_rated_products :=
            (products.filter (fun p => decide (4 ≤ p.rating))).take 10 } := by
      simp only [analyze_ratings, hrt, Bool.false_eq_true, if_false]
    exact ⟨_, hok, rfl, rfl, rfl⟩

/-- C7 witness. -/
theorem analyze_products_partial_failure_witness :
    ∃ a, analyze_products [{ rating := 4 }] = .ok a ∧
      a.price_analysis = .error "No valid price data found" ∧
      ∃ r, a.rating_analysis = .ok r ∧
        r.average_rating = mean (positiveRatings [{ rating := 4 }]) ∧
        r.median_rating = median (positiveRatings [{ rating := 4 }]) ∧
        r.total_products_with_rating =
          (positiveRatings [{ rating := 4 }]).length :=
  analyze_products_partial_failure [{ rating := 4 }] (by decide) (by decide)

/-! ### C8: ordered keyword categorization -/

theorem find?_prefix_none {α : Type} {p : α → Bool} :
    ∀ (l₁ : List α) {x : α} (l₂ : List α), (∀ y ∈ l₁, p y = false) →
      p x = true → List.find? p (l₁ ++ x :: l₂) = some x
  | [], _, l₂, _, hx => by
    simpa using List.find?_cons_of_pos l₂ hx
  | y :: l₁, x, l₂, h, hx => by
    have hy : p y = false := h y (List.mem_cons_self _ _)
    simp only [List.cons_append]
    rw [List.find?_cons_of_neg _ (by simp [hy])]
    exact find?_prefix_none l₁ l₂ (fun z hz => h z (List.mem_cons_of_mem _ hz)) hx

/-- C8 counterexample: a product whose name matches no keyword is placed
in the bucket keyed `'others'`; no `"uncategorized"` bucket exists. -/
def c8noMatch : Product := { name := "zzz" }

/-- C8 counterexample: the fallback bucket is keyed `'others'`, not
`"uncategorized"` — the claim's literal fallback-bucket name does not
occur in the report. -/
theorem categorizer_fallback_counterexample :
    (categorize_affordable_products [c8noMatch]).categories =
      [("others", [c8noMatch])] ∧
    bucketOf (categorize_affordable_products [c8noMatch]).categories
      "uncategorized" = [] :=
  ⟨rfl, rfl⟩

/-- C8 (amended): the Categorizer assigns a product to the FIRST category
of the ordered keyword table whose keyword list has a case-insensitive
substring match against the product name ("Wireless Earphone Charger" →
electronics), a product matching no category goes to the fallback bucket
keyed `'others'`, and every product lands in the bucket of its assigned
category. -/
theorem categorizer_first_match_fallback :
    (∀ name : String, ∀ l₁ ck l₂, category_keywords = l₁ ++ ck :: l₂ →
        (∀ ck' ∈ l₁, matchesCategory (strLower name) ck' = false) →
        matchesCategory (strLower name) ck = true →
        categorize_product name = ck.1) ∧
    (∀ name : String,
        (∀ ck ∈ category_keywords, matchesCategory (strLower name) ck = false) →
        categorize_product name = "others") ∧
    categorize_product "Wireless Earphone Charger" = "electronics" ∧
    (∀ products : List Product, ∀ p ∈ products,
        p ∈ bucketOf (categorize_affordable_products products).categories
          (categorize_product p.name)) := by
  refine ⟨?_, ?_, by decide, ?_⟩
  · intro name l₁ ck l₂ htab hpre hck
    simp only [categorize_product]
    rw [htab, find?_prefix_none l₁ l₂ hpre hck]
  · intro name hall
    simp only [categorize_product]
    rw [List.find?_eq_none.mpr (fun x hx => by simp [hall x hx])]
  · intro products p hp
    have hcat : (categorize_affordable_products products).categories =
        groupByKey (fun q => categorize_product q.name) products := rfl
    rw [hcat]
    exact mem_bucketOf_groupByKey _ hp

/-- C8 witness: a name matching no keyword in the table is assigned to
the fallback bucket key by the first-match rule's fallback clause. -/
theorem categorizer_first_match_fallback_witness :
    categorize_product "zzz" = "others" :=
  categorizer_first_match_fallback.2.1 "zzz" (by decide)

/-! ### C9: grouping partitions the records -/

/-- C9: on any non-empty collection, the platform grouping of
`compare_platforms` and the category buckets of the Categorizer each
cover every record exactly once (group sizes sum to the input length),
and a record with no platform key lands in the explicit `'unknown'`
bucket of the platform grouping rather than being dropped. -/
theorem grouping_partitions (products : List Product) (hne : products ≠ []) :
    (∃ c, compare_platforms products = .ok c ∧
        (c.platform_metrics.map
          (fun g => PlatformReport.product_count g.2)).sum = products.length) ∧
    ((categorize_affordable_products products).categories.map
        (fun g => g.2.length)).sum = products.length ∧
    ∀ p ∈ products, p.platform = none →
      p ∈ bucketOf (groupByKey platformKey products) "unknown" := by
  have hemp : products.isEmpty = false := by
    rw [List.isEmpty_eq_false]; exact hne
  refine ⟨?_, ?_, ?_⟩
  · have hok : compare_platforms products = .ok
        { platform_metrics := (groupByKey platformKey products).map
            (fun g => (g.1, calculate_platform_metrics g.2))
          total_platforms := (groupByKey platformKey products).length
          best_platform :=
            match firstMaxBy (fun g => PlatformReport.score g.2)
                ((groupByKey platformKey products).map
                  (fun g => (g.1, calculate_platform_metrics g.2))) with
            | some g => g.1
            | none => ""
          platform_scores :=
            if ((groupByKey platformKey products).map
                (fun g => (g.1, calculate_platform_metrics g.2))).isEmpty then []
            else ((groupByKey platformKey products).map
                (fun g => (g.1, calculate_platform_metrics g.2))).map
              (fun g => (g.1, PlatformReport.score g.2)) } := by
      simp only [compare_platforms, hemp, Bool.false_eq_true, if_false]
    refine ⟨_, hok, ?_⟩
    have hcongr : ((groupByKey platformKey products).map
          (fun g => (g.1, calculate_platform_metrics g.2))).map
          (fun g => PlatformReport.product_count g.2) =
        (groupByKey platformKey products).map (fun e => e.2.length) := by
      rw [List.map_map]
      apply List.map_congr_left
      intro e he
      have hef : e.2.isEmpty = false := by
        rw [List.isEmpty_eq_false]
        exact ne_nil_groupByKey platformKey products e he
      simp [Function.comp, calculate_platform_metrics, hef,
        PlatformReport.product_count]
    rw [hcongr, sizes_groupByKey]
  · have hcat : (categorize_affordable_products products).categories =
        groupByKey (fun q => categorize_product q.name) products := rfl
    rw [hcat, sizes_groupByKey]
  · intro p hp hplat
    have hkey : platformKey p = "unknown" := by simp [platformKey, hplat]
    have hmem := mem_bucketOf_groupByKey platformKey hp
    rwa [hkey] at hmem

/-- C9 witness: a two-record collection, one record without a platform
key. -/
theorem grouping_partitions_witness :
    (∃ c, compare_platforms [{ platform := none }, { platform := some "shopee" }] =
        .ok c ∧
      (c.platform_metrics.map (fun g => PlatformReport.product_count g.2)).sum =
        ([({ platform := none } : Product), { platform := some "shopee" }]).length) ∧
    ((categorize_affordable_products
        [{ platform := none }, { platform := some "shopee" }]).categories.map
      (fun g => g.2.length)).sum =
      ([({ platform := none } : Product), { platform := some "shopee" }]).length ∧
    ∀ p ∈ [({ platform := none } : Product), { platform := some "shopee" }],
      p.platform = none →
        p ∈ bucketOf (groupByKey platformKey
          [{ platform := none }, { platform := some "shopee" }]) "unknown" :=
  grouping_partitions [{ platform := none }, { platform := some "shopee" }]
    (by decide)

/-! ### C10: no filtering when max_price is unset -/

/-- C10: with `max_price` unset, `get_top_sellers` applies no price
filter at all — the result is exactly the first `top_n` records of the
stable descending sales ranking of the raw input (so invalid-price
records can appear), `total_filtered` is the full input length and no
filter is recorded. -/
theorem get_top_sellers_unset_max_price (products : List Product) (top_n : ℕ)
    (h : (rank_by_sales products).take top_n ≠ []) :
    ∃ r, get_top_sellers products top_n none = .ok r ∧
      r.top_sellers = (rank_by_sales products).take top_n ∧
      r.total_filtered = products.length ∧
      r.filter_applied = none := by
  have hemp : ((rank_by_sales products).take top_n).isEmpty = false := by
    rw [List.isEmpty_eq_false]; exact h
  refine ⟨{ top_sellers := (rank_by_sales products).take top_n
            count := ((rank_by_sales products).take top_n).length
            total_filtered := products.length
            filter_applied := none
            top_seller_analysis :=
              analyze_top_sellers ((rank_by_sales products).take top_n) },
    ?_, rfl, rfl, rfl⟩
  simp only [get_top_sellers, hemp, Bool.false_eq_true, if_false]

/-- C10 witness: a record with price 0 (an invalid price) tops the
top-seller list when no ceiling is given. -/
theorem get_top_sellers_unset_max_price_witness :
    (∃ r, get_top_sellers [{ price := 0, sold := 5 }] 1 none = .ok r ∧
      r.top_sellers = (rank_by_sales [{ price := 0, sold := 5 }]).take 1 ∧
      r.total_filtered = ([({ price := 0, sold := 5 } : Product)]).length ∧
      r.filter_applied = none) ∧
    ({ price := 0, sold := 5 } : Product).price ≤ 0 ∧
    (rank_by_sales [{ price := 0, sold := 5 }]).take 1 =
      [{ price := 0, sold := 5 }] :=
  ⟨get_top_sellers_unset_max_price [{ price := 0, sold := 5 }] 1 (by decide),
    by decide, by decide⟩
